import Mathlib

/-!
Shallow embedding of the `yahoo_search` package (`src/yahoo_search/core.py`)
and verification of the frozen claims about it.

The HTTP/DOM layers (httpx, selectolax) are library dependencies of the
source; the extractors are embedded as pure functions over abstractions of
what the CSS-selector probes yield (one input field per selector probe of
the source), and the pydantic models are embedded as structures together
with explicit validation functions.  Python exceptions (AssertionError,
IndexError, pydantic ValidationError, ...) are modelled with `Except`.
-/

namespace YahooSearch

/-! ### Python string helpers

Executable models of the `str` / `urllib.parse` operations the source uses.
All of them work on `List Char`; Python strings are sequences of code
points, as are Lean `String`s via `String.data`.
-/

/-- Model of Python `s.split(sep)` for a non-empty separator, on char
lists.  The separator is passed as head plus tail so that it is non-empty
by construction; splitting is on non-overlapping occurrences, left to
right, and adjacent separators yield empty pieces, as in Python.
Fuel-based structural recursion so that the kernel can evaluate it. -/
def pySplitFuel (sep : List Char) : Nat → List Char → List (List Char)
  | _, [] => [[]]
  | 0, s => [s]
  | fuel + 1, c :: rest =>
    if sep.isPrefixOf (c :: rest) then
      [] :: pySplitFuel sep fuel ((c :: rest).drop sep.length)
    else
      match pySplitFuel sep fuel rest with
      | [] => [[c]]
      | h :: t => (c :: h) :: t

/-- Model of Python `s.split(sep)`: `pySplit s sep`.  For the empty
separator Python raises; the source never splits on an empty separator,
and the model returns `[s]` there. -/
def pySplit (s sep : String) : List String :=
  match sep.data with
  | [] => [s]
  | _ :: _ => (pySplitFuel sep.data s.data.length s.data).map String.mk

/-- Hex digit value, for percent-decoding. -/
def hexVal? (c : Char) : Option Nat :=
  if '0' ≤ c ∧ c ≤ '9' then some (c.toNat - '0'.toNat)
  else if 'a' ≤ c ∧ c ≤ 'f' then some (c.toNat - 'a'.toNat + 10)
  else if 'A' ≤ c ∧ c ≤ 'F' then some (c.toNat - 'A'.toNat + 10)
  else none

/-- Model of `urllib.parse.unquote` on char lists: every valid `%XX`
escape is decoded to the character with that byte value; an invalid or
truncated escape is left as a literal `%`, as in Python.  (Python decodes
runs of escapes as UTF-8 byte sequences; for ASCII escapes — the only ones
the source's URLs carry — that coincides with per-escape decoding.) -/
def unquoteChars : List Char → List Char
  | [] => []
  | '%' :: a :: b :: rest =>
    match hexVal? a, hexVal? b with
    | some ha, some hb => Char.ofNat (16 * ha + hb) :: unquoteChars rest
    | _, _ => '%' :: unquoteChars (a :: b :: rest)
  | c :: rest => c :: unquoteChars rest

/-- Model of `urllib.parse.unquote` on strings. -/
def unquote (s : String) : String :=
  String.mk (unquoteChars s.data)

/-- Characters allowed in a URL scheme after the leading letter
(`urllib.parse.scheme_chars`). -/
def isSchemeChar (c : Char) : Bool :=
  c.isAlphanum || c = '+' || c = '-' || c = '.'

/-- Strip a leading `scheme:` from a URL, as `urllib.parse.urlsplit`
does: the text before the first `:` must be non-empty, start with a
letter and consist of scheme characters, otherwise nothing is removed. -/
def stripSchemeChars (l : List Char) : List Char :=
  let pre := l.takeWhile (fun c => c ≠ ':')
  if pre.length = l.length then l
  else if pre = [] then l
  else if (pre.headD 'a').isAlpha ∧ pre.all isSchemeChar then
    l.drop (pre.length + 1)
  else l

/-- True for the characters that end the network-location part of a URL
(`/`, `?`, `#`), as in `urllib.parse.urlsplit`. -/
def isNetlocEnd (c : Char) : Bool :=
  c = '/' || c = '?' || c = '#'

/-- Model of `urllib.parse.urlsplit(url).path`: drop the fragment (from
the first `#`), drop a valid `scheme:`, drop a `//netloc` part if
present, and drop the query (from the first `?`). -/
def urlsplitPath (url : String) : String :=
  let l := url.data.takeWhile (fun c => c ≠ '#')
  let l := stripSchemeChars l
  let l :=
    match l with
    | '/' :: '/' :: rest => rest.dropWhile (fun c => !isNetlocEnd c)
    | _ => l
  String.mk (l.takeWhile (fun c => c ≠ '?'))

/-- Model of Python `s[2:]` (drop the first two characters). -/
def pyDrop2 (s : String) : String :=
  String.mk (s.data.drop 2)

/-- Model of Python `s[:-1]` (drop the last character; empty stays
empty). -/
def pyDropLast (s : String) : String :=
  String.mk (s.data.take (s.data.length - 1))

/-- Model of Python `s.startswith(p)`. -/
def pyStartsWith (s p : String) : Bool :=
  p.data.isPrefixOf s.data

/-- Model of Python `int(s)` (the success cases the source can meet):
surrounding whitespace is stripped, an optional sign is allowed, and the
rest must be one or more decimal digits; everything else raises
`ValueError`, modelled as `none`. -/
def pyInt? (s : String) : Option Int :=
  let t := (s.data.dropWhile Char.isWhitespace).reverse.dropWhile Char.isWhitespace |>.reverse
  let digitsVal : List Char → Option Int := fun l =>
    if l ≠ [] ∧ l.all Char.isDigit then
      some (Int.ofNat (l.foldl (fun acc c => 10 * acc + (c.toNat - '0'.toNat)) 0))
    else none
  match t with
  | '-' :: rest => (digitsVal rest).map Neg.neg
  | '+' :: rest => digitsVal rest
  | _ => digitsVal t

/-! ### Error model

Every way a call of the source can fail maps to a Python exception class;
`ErrKind` is that class, `ExtractError` the class plus the message. -/

/-- The Python exception class of a failure. -/
inductive ErrKind where
  | assertionError
  | validationError
  | indexError
  | valueError
  | attributeError
  | typeError
  deriving DecidableEq, Repr

/-- A failure of an extractor call: its Python exception class and the
message it carries. -/
inductive ExtractError where
  | mk (kind : ErrKind) (msg : String)
  deriving DecidableEq, Repr

/-- The exception class of a failure. -/
def ExtractError.kind : ExtractError → ErrKind
  | .mk k _ => k

/-- The message of a failure. -/
def ExtractError.msg : ExtractError → String
  | .mk _ m => m

deriving instance DecidableEq for Except

/-! ### Link helpers (`get_abs_link`, `get_abs_image`) -/

/-- Embedding of `get_abs_link` (core.py lines 110–116):

    def get_abs_link(r_search_link):
        if not r_search_link:
            return ""
        return unquote(urlsplit(r_search_link).path.split("RU=")[1].split('/')[0])

`[1]` raises `IndexError` when the path has no `RU=` marker; `[0]` of a
split never fails. -/
def get_abs_link (r_search_link : Option String) : Except ExtractError String :=
  match r_search_link with
  | none => .ok ""
  | some s =>
    if s = "" then .ok ""
    else
      match (pySplit (urlsplitPath s) "RU=").get? 1 with
      | none => .error (.mk .indexError "list index out of range")
      | some seg => .ok (unquote ((pySplit seg "/").headD ""))

/-- Embedding of `get_abs_image` (core.py lines 118–122):

    def get_abs_image(yimg_link):
        if not yimg_link:
            return ""
        return "https://" + yimg_link.split('https://')[1]

`[1]` raises `IndexError` when no `https://` occurs in the link. -/
def get_abs_image (yimg_link : Option String) : Except ExtractError String :=
  match yimg_link with
  | none => .ok ""
  | some s =>
    if s = "" then .ok ""
    else
      match (pySplit s "https://").get? 1 with
      | none => .error (.mk .indexError "list index out of range")
      | some seg => .ok ("https://" ++ seg)

/-! ### The pydantic models (core.py lines 20–107)

Each `BaseModel` becomes a structure; a field with default `None` becomes
an `Option` with default `none`.  Validation of the untyped dicts the
extractors build is made explicit by `validate…` functions below: a
required (non-`Optional`) field whose dict key is missing or `None` is a
pydantic `ValidationError`; extra dict keys are ignored, as in pydantic's
default configuration. -/

structure AlsoTryItem where
  link : String
  text : String
  deriving DecidableEq, Repr

structure PageResult where
  title : String
  link : String
  text : Option String := none
  deriving DecidableEq, Repr

structure CardResultSource where
  link : String
  text : String
  deriving DecidableEq, Repr

structure CardResult where
  image : Option String := none
  heading : Option String := none
  text : Option String := none
  source : Option CardResultSource := none
  deriving DecidableEq, Repr

structure RelatedSearch where
  link : String
  text : String
  deriving DecidableEq, Repr

structure SearchResult where
  also_try : List AlsoTryItem
  pages : List PageResult
  card : Option CardResult := none
  related_searches : List RelatedSearch
  deriving DecidableEq, Repr

/-- `News` (core.py lines 49–54): only `title` is required; note the
model's optional field is named `last_updated`. -/
structure News where
  title : String
  thumbnail : Option String := none
  source : Option String := none
  last_updated : Option String := none
  text : Option String := none
  deriving DecidableEq, Repr

structure NewsSearchResult where
  news : List News
  deriving DecidableEq, Repr

structure Video where
  age : Option String := none
  cite : Option String := none
  thumbnail : Option String := none
  video_preview : Option String := none
  title : String
  link : String
  deriving DecidableEq, Repr

structure VideoSearchResult where
  videos : List Video
  deriving DecidableEq, Repr

structure HighLowTemperature where
  highest : Int
  lowest : Int
  deriving DecidableEq, Repr

structure WeatherForecastInner where
  text : String
  icon : String
  deriving DecidableEq, Repr

structure Precipitation where
  icon : String
  percentage : String
  deriving DecidableEq, Repr

structure WeatherForecast where
  fahrenheit : HighLowTemperature
  celsius : HighLowTemperature
  weather : WeatherForecastInner
  precipitation : Precipitation
  deriving DecidableEq, Repr

/-- The seven weekday names, the admissible keys of the `forecast`
mapping (the `Literal[...]` key type of `WeatherInformation.forecast`). -/
def weekdays : List String :=
  ["Monday", "Tuesday", "Wednesday", "Thursday", "Friday", "Saturday", "Sunday"]

/-- `WeatherInformation` (core.py lines 88–107); the `forecast` dict is
modelled as an association list in insertion order, as Python dicts
preserve insertion order. -/
structure WeatherInformation where
  location : String
  country : String
  time : String
  celsius : Int
  fahrenheit : Int
  weather : String
  weather_icon : String
  forecast : List (String × WeatherForecast)
  deriving DecidableEq, Repr

/-! ### DOM abstraction for the search results page

One field per CSS-selector probe `search` (core.py lines 124–245)
performs.  Attribute values are `Option String` (`none` models a
valueless attribute, which selectolax reports as `None`); texts obtained
through `unwrap_tags` plus `text(deep=True, separator=" ", strip=True)`
are carried already flattened, that being the parser library's work. -/

/-- A `div.compTitle h3 a` anchor of an organic result block. -/
structure TitleNode where
  href : Option String
  lastChildText : Option String
  deriving DecidableEq, Repr

/-- One `.dd.algo.algo-sr` organic result block: its title anchors and
the flattened texts of its `.compText.aAbs p` paragraphs. -/
structure Webpage where
  titles : List TitleNode
  texts : List String
  deriving DecidableEq, Repr

/-- The citation anchor inside the card's body paragraph; its href is
read with `attributes.get("href")`, so a missing attribute is `None`,
not an error. -/
structure CardAnchor where
  href : Option String
  text : String
  deriving DecidableEq, Repr

/-- The card's `div.compText p` body paragraph. -/
structure CardInner where
  firstChildText : Option String
  source : Option CardAnchor
  deriving DecidableEq, Repr

/-- The `.cardReg.searchRightTop` info-card panel: the `src` of its first
`img` when one exists, the flattened text of its heading span, and its
body paragraph. -/
structure CardNode where
  imgSrc : Option (Option String)
  headingText : Option String
  inner : Option CardInner
  deriving DecidableEq, Repr

/-- An `also_try` / `related_searches` anchor: its `href` attribute and
its (flattened) text. -/
structure LinkItem where
  href : Option String
  text : String
  deriving DecidableEq, Repr

/-- The parsed search results page: the `.reg.searchCenterMiddle`
container with its organic blocks (when present), the optional card
panel, and the two link lists. -/
structure SearchPage where
  center : Option (List Webpage)
  card : Option CardNode
  also_try : List LinkItem
  related : List LinkItem
  deriving DecidableEq, Repr

/-! ### The search extractor (core.py lines 124–245) -/

/-- The dict built for one organic result block before validation. -/
structure PageDict where
  title : Option String := none
  link : Option String := none
  text : Option String := none
  deriving DecidableEq, Repr

/-- The `for title in webpage.css(...)` loop (core.py lines 168–175):
each anchor's href goes through `get_abs_link` (whose `IndexError`
propagates), and the dict keeps the pair from the last anchor. -/
def titleLoop : List TitleNode → Option (String × String) →
    Except ExtractError (Option (String × String))
  | [], acc => .ok acc
  | t :: ts, _acc =>
    match get_abs_link t.href with
    | .error e => .error e
    | .ok absLink => titleLoop ts (some (t.lastChildText.getD "", absLink))

/-- Builds the per-block dict (core.py lines 166–184): the title loop,
then the snippet loop where the last `.compText.aAbs p` text wins. -/
def buildPageDict (w : Webpage) : Except ExtractError PageDict :=
  match titleLoop w.titles none with
  | .error e => .error e
  | .ok tl =>
    .ok { title := tl.map Prod.fst, link := tl.map Prod.snd,
          text := w.texts.foldl (fun _ t => some t) none }

/-- The loop over all organic blocks (core.py line 165). -/
def buildPageDicts : List Webpage → Except ExtractError (List PageDict)
  | [] => .ok []
  | w :: ws =>
    match buildPageDict w with
    | .error e => .error e
    | .ok d =>
      match buildPageDicts ws with
      | .error e => .error e
      | .ok ds => .ok (d :: ds)

/-- The card dict `contents["card"]`, `{}` when the panel is absent. -/
structure CardDict where
  image : Option String := none
  heading : Option String := none
  text : Option String := none
  source : Option (String × String) := none
  deriving DecidableEq, Repr

/-- Builds `contents["card"]` (core.py lines 186–217): starts as `{}`
and is only updated when `.cardReg.searchRightTop` matched. -/
def buildCardDict : Option CardNode → Except ExtractError CardDict
  | none => .ok {}
  | some c =>
    let step1 : Except ExtractError CardDict :=
      match c.imgSrc with
      | none => .ok {}
      | some src =>
        match get_abs_image src with
        | .error e => .error e
        | .ok i => .ok { image := some i }
    match step1 with
    | .error e => .error e
    | .ok d =>
      let d := match c.headingText with
        | none => d
        | some t => { d with heading := some t }
      match c.inner with
      | none => .ok d
      | some inner =>
        let d := { d with text := some (inner.firstChildText.getD "") }
        match inner.source with
        | none => .ok d
        | some a =>
          match get_abs_link a.href with
          | .error e => .error e
          | .ok l => .ok { d with source := some (l, a.text) }

/-- pydantic validation of the `pages` entries: `PageResult` requires
`title` and `link`. -/
def validatePages : List PageDict → Except ExtractError (List PageResult)
  | [] => .ok []
  | d :: ds =>
    match d.title, d.link with
    | some t, some l =>
      match validatePages ds with
      | .error e => .error e
      | .ok ps => .ok ({ title := t, link := l, text := d.text } :: ps)
    | _, _ => .error (.mk .validationError "pages field required")

/-- pydantic validation of the `also_try` entries: `AlsoTryItem`
requires a string `link`, so a `None` href fails validation. -/
def validateAlsoTry : List (Option String × String) →
    Except ExtractError (List AlsoTryItem)
  | [] => .ok []
  | (href, txt) :: ds =>
    match href with
    | some l =>
      match validateAlsoTry ds with
      | .error e => .error e
      | .ok as => .ok ({ link := l, text := txt } :: as)
    | none => .error (.mk .validationError "also_try field required")

/-- pydantic validation of the `related_searches` entries. -/
def validateRelated : List (Option String × String) →
    Except ExtractError (List RelatedSearch)
  | [] => .ok []
  | (href, txt) :: ds =>
    match href with
    | some l =>
      match validateRelated ds with
      | .error e => .error e
      | .ok as => .ok ({ link := l, text := txt } :: as)
    | none => .error (.mk .validationError "related_searches field required")

/-- pydantic validation of the card dict: all `CardResult` fields are
optional, so this always succeeds, producing an empty `CardResult` from
an empty dict. -/
def validateCard (d : CardDict) : CardResult :=
  { image := d.image, heading := d.heading, text := d.text,
    source := d.source.map (fun p => { link := p.1, text := p.2 }) }

/-- Embedding of the parsing part of `search` (core.py lines 154–245):
assert the results container, build the page dicts, the card dict and
the two link lists, then validate them as `SearchResult(**contents)`
does.  Since `contents["card"]` is always a dict (possibly `{}`), the
result's `card` is always `some` of a validated `CardResult`. -/
def search_extract (p : SearchPage) : Except ExtractError SearchResult :=
  match p.center with
  | none =>
    .error (.mk .assertionError
      "Could not find \x27.reg.searchCCenterMiddle\x27 (search results)")
  | some webpages =>
    match buildPageDicts webpages with
    | .error e => .error e
    | .ok pageDicts =>
      match buildCardDict p.card with
      | .error e => .error e
      | .ok cardDict =>
        match validateAlsoTry (p.also_try.map (fun it => (it.href, it.text))) with
        | .error e => .error e
        | .ok alsoTry =>
          match validatePages pageDicts with
          | .error e => .error e
          | .ok pages =>
            match validateRelated (p.related.map (fun it => (it.href, it.text))) with
            | .error e => .error e
            | .ok rel =>
              .ok { also_try := alsoTry, pages := pages,
                    card := some (validateCard cardDict),
                    related_searches := rel }

/-! ### DOM abstraction and embedding of the news extractor
(`search_news`, core.py lines 274–345) -/

/-- An `img` node: its `src` attribute value (`none` models a valueless
attribute, reported as `None`). -/
structure ImgNode where
  src : Option String
  deriving DecidableEq, Repr

/-- An `h4 a` heading anchor of a news item. -/
structure NewsAnchor where
  text : String
  href : Option String
  deriving DecidableEq, Repr

/-- One `li .dd.NewsArticle li` news list item: one field per
`css_first` probe of the source. -/
structure NewsItem where
  img : Option ImgNode
  title : Option NewsAnchor
  source : Option String
  lastUpdated : Option String
  description : Option String
  deriving DecidableEq, Repr

/-- The parsed news page: the `#main #web` container with its items. -/
structure NewsPage where
  web : Option (List NewsItem)
  deriving DecidableEq, Repr

/-- The dict built per news item (core.py lines 302–343).  The keys
`link` and `time` name no `News` field (the model's field is
`last_updated`), so validation ignores them. -/
structure NewsDict where
  thumbnail : Option (Option String) := none
  title : Option String := none
  link : Option (Option String) := none
  source : Option String := none
  time : Option String := none
  text : Option String := none
  deriving DecidableEq, Repr

/-- Builds the dict for one news item (core.py lines 302–340).  When the
thumbnail's `src` attribute is valueless, `src.startswith(...)` is an
`AttributeError` on `None`, which the source's `# type: ignore` marks. -/
def buildNewsDict (n : NewsItem) : Except ExtractError NewsDict :=
  let d : NewsDict := {}
  let step1 : Except ExtractError NewsDict :=
    match n.img with
    | none => .ok d
    | some img =>
      match img.src with
      | none => .error (.mk .attributeError
          "NoneType object has no attribute startswith")
      | some src =>
        let tv : Option String :=
          if pyStartsWith src "data:image/" then none else some src
        .ok { d with thumbnail := some tv }
  match step1 with
  | .error e => .error e
  | .ok d =>
    let d := match n.title with
      | none => d
      | some a => { d with title := some a.text, link := some a.href }
    let d := match n.source with
      | none => d
      | some s => { d with source := some s }
    let d := match n.lastUpdated with
      | none => d
      | some s => { d with time := some (pyDrop2 s) }
    let d := match n.description with
      | none => d
      | some s => { d with text := some s }
    .ok d

/-- The loop over all news items (core.py line 301). -/
def buildNewsDicts : List NewsItem → Except ExtractError (List NewsDict)
  | [] => .ok []
  | n :: ns =>
    match buildNewsDict n with
    | .error e => .error e
    | .ok d =>
      match buildNewsDicts ns with
      | .error e => .error e
      | .ok ds => .ok (d :: ds)

/-- pydantic validation of one news dict: `title` is required; the extra
keys `link` and `time` are ignored; no dict ever carries a
`last_updated` key, so that field is always `None`. -/
def validateNews (d : NewsDict) : Except ExtractError News :=
  match d.title with
  | none => .error (.mk .validationError "news title field required")
  | some t =>
    .ok { title := t, thumbnail := d.thumbnail.getD none,
          source := d.source, last_updated := none, text := d.text }

/-- `NewsSearchResult(news=contents)` validation over the whole list. -/
def validateNewsList : List NewsDict → Except ExtractError (List News)
  | [] => .ok []
  | d :: ds =>
    match validateNews d with
    | .error e => .error e
    | .ok n =>
      match validateNewsList ds with
      | .error e => .error e
      | .ok ns => .ok (n :: ns)

/-- Embedding of the parsing part of `search_news` (core.py lines
295–345): assert the `#main #web` container, build all item dicts, then
validate them as `NewsSearchResult(news=contents)`. -/
def search_news_extract (p : NewsPage) : Except ExtractError NewsSearchResult :=
  match p.web with
  | none =>
    .error (.mk .assertionError "Could not find \x27#main #web\x27 (news results)")
  | some items =>
    match buildNewsDicts items with
    | .error e => .error e
    | .ok ds =>
      match validateNewsList ds with
      | .error e => .error e
      | .ok news => .ok { news := news }

/-! ### DOM abstraction and embedding of the video extractor
(`search_videos`, core.py lines 347–438) -/

/-- The `meta['m']` object of the anchor's `data` JSON attribute, when
not `null`; the source only reads `meta['m']['u']`. -/
structure VideoMetaM where
  u : String
  deriving DecidableEq, Repr

/-- The parsed `data` JSON attribute; `m := none` models JSON `null`
("sometimes nothing"). -/
structure VideoMeta where
  m : Option VideoMetaM
  deriving DecidableEq, Repr

/-- The first `a` of a video result: `attributes['href']` and the parsed
`attributes.get("data")` JSON (the `json.loads` call being the JSON
library's work). -/
structure VideoAnchor where
  href : Option String
  dataMeta : Option VideoMeta
  deriving DecidableEq, Repr

/-- The `div.v-meta` metadata block: its first child's flattened text
(the title), the `.v-age` text and its last child's text (the cite). -/
structure VideoMetaBlock where
  firstChildText : Option String
  age : Option String
  lastChildText : Option String
  deriving DecidableEq, Repr

/-- One `#search li.vr.vres` video result item. -/
structure VideoItem where
  anchor : Option VideoAnchor
  imgSrc : Option (Option String)
  duration : Option String
  meta : Option VideoMetaBlock
  deriving DecidableEq, Repr

/-- The parsed video page: all `#search li.vr.vres` matches. -/
structure VideoPage where
  results : List VideoItem
  deriving DecidableEq, Repr

/-- The dict built per video item (core.py lines 379–436); `duration`
names no `Video` field, so validation ignores it. -/
structure VideoDict where
  link : Option String := none
  video_preview : Option String := none
  thumbnail : Option (Option String) := none
  duration : Option String := none
  title : Option String := none
  age : Option String := none
  cite : Option String := none
  deriving DecidableEq, Repr

/-- Builds the dict for one video item (core.py lines 379–434).  A
valueless `href` makes `"https://..." + None` a `TypeError`, which the
source's `# type: ignore` marks. -/
def buildVideoDict (v : VideoItem) : Except ExtractError VideoDict :=
  let d : VideoDict := {}
  let step1 : Except ExtractError VideoDict :=
    match v.anchor with
    | none => .ok d
    | some a =>
      match a.href with
      | none => .error (.mk .typeError "can only concatenate str to str")
      | some h =>
        let d := { d with link := some ("https://sg.video.search.yahoo.com" ++ h) }
        match a.dataMeta with
        | none => .ok d
        | some meta =>
          match meta.m with
          | none => .ok d
          | some mm => .ok { d with video_preview := some mm.u }
  match step1 with
  | .error e => .error e
  | .ok d =>
    let d := match v.imgSrc with
      | none => d
      | some src => { d with thumbnail := some src }
    let d := match v.duration with
      | none => d
      | some s => { d with duration := some s }
    match v.meta with
    | none => .ok d
    | some mb =>
      let d := match mb.firstChildText with
        | none => d
        | some t => { d with title := some t }
      let d := match mb.age with
        | none => d
        | some t => { d with age := some t }
      let d := match mb.lastChildText with
        | none => d
        | some t => { d with cite := some t }
      .ok d

/-- The loop over all video items (core.py line 378). -/
def buildVideoDicts : List VideoItem → Except ExtractError (List VideoDict)
  | [] => .ok []
  | v :: vs =>
    match buildVideoDict v with
    | .error e => .error e
    | .ok d =>
      match buildVideoDicts vs with
      | .error e => .error e
      | .ok ds => .ok (d :: ds)

/-- pydantic validation of one video dict: `title` and `link` are
required; the extra key `duration` is ignored. -/
def validateVideo (d : VideoDict) : Except ExtractError Video :=
  match d.title, d.link with
  | some t, some l =>
    .ok { age := d.age, cite := d.cite, thumbnail := d.thumbnail.getD none,
          video_preview := d.video_preview, title := t, link := l }
  | _, _ => .error (.mk .validationError "videos field required")

/-- `VideoSearchResult(videos=contents)` validation over the list. -/
def validateVideoList : List VideoDict → Except ExtractError (List Video)
  | [] => .ok []
  | d :: ds =>
    match validateVideo d with
    | .error e => .error e
    | .ok v =>
      match validateVideoList ds with
      | .error e => .error e
      | .ok vs => .ok (v :: vs)

/-- Embedding of the parsing part of `search_videos` (core.py lines
372–438): `assert results` fails on the empty match list (an empty list
is falsy), otherwise all items are processed and validated. -/
def search_videos_extract (p : VideoPage) : Except ExtractError VideoSearchResult :=
  match p.results with
  | [] =>
    .error (.mk .assertionError
      "Couldn\x27t find any results for \x27#search li.vr.vres\x27")
  | r :: rs =>
    match buildVideoDicts (r :: rs) with
    | .error e => .error e
    | .ok ds =>
      match validateVideoList ds with
      | .error e => .error e
      | .ok vs => .ok { videos := vs }

/-! ### Embedding of `autocomplete` (core.py lines 583–607) -/

/-- A JSON value, as far as the autocomplete endpoint body needs. -/
inductive Json where
  | str (s : String)
  | arr (xs : List Json)
  | num (n : Int)
  | null

/-- Embedding of the data path of `autocomplete` (core.py line 607):
`return res.json()[1]`.  Indexing a JSON array out of range is an
`IndexError`; integer-indexing a non-array body is a `TypeError`. -/
def autocomplete_extract (j : Json) : Except ExtractError Json :=
  match j with
  | .arr xs =>
    match xs.get? 1 with
    | some v => .ok v
    | none => .error (.mk .indexError "list index out of range")
  | _ => .error (.mk .typeError "value is not subscriptable")

/-! ### DOM abstraction and embedding of the weather extractor
(`weather`, core.py lines 440–581) -/

/-- A `td.Ta\x28c\x29 img` weather icon cell of a forecast row: its
`alt` and `src` attribute values. -/
structure WeatherImgNode where
  alt : Option String
  src : Option String
  deriving DecidableEq, Repr

/-- A precipitation cell of a forecast row: the `src` of its first child
(an `img`) and the text of its last child's last child.  A missing child
would crash the source (its `# type: ignore` comments); rows are assumed
to carry both, which every claim's fixture does. -/
structure PrecipNode where
  iconSrc : String
  percentage : String
  deriving DecidableEq, Repr

/-- One forecast table row: the day label text from
`row.first_child.last_child.text()`, the icon and precipitation probes,
and the texts of the `dl dd` temperature cells in document order. -/
structure ForecastRow where
  day : String
  weatherImg : Option WeatherImgNode
  precip : Option PrecipNode
  hl_temp : List String
  deriving DecidableEq, Repr

/-- The `div#module-location-heading` module: the `src` of its first
`img` when one matched, and the text of its first `p`. -/
structure HeadingModule where
  imgSrc : Option (Option String)
  pText : Option String
  deriving DecidableEq, Repr

/-- The parsed weather page: one field per document-level probe.  The
forecast table rows are a document-level query in the source, but they
are only walked when the heading module matched. -/
structure WeatherPage where
  location : Option String
  country : Option String
  time : Option String
  celsiusText : Option String
  fahrenheitText : Option String
  heading : Option HeadingModule
  rows : List ForecastRow
  deriving DecidableEq, Repr

/-- The partial high/low dict of one scale. -/
structure RawHL where
  highest : Option Int := none
  lowest : Option Int := none
  deriving DecidableEq, Repr

/-- The per-row `info` dict before validation. -/
structure RawInfo where
  fahrenheit : RawHL := {}
  celsius : RawHL := {}
  weather : Option (Option String × Option String) := none
  precipitation : Option (String × String) := none
  deriving DecidableEq, Repr

/-- The `for index, item in enumerate(hl_temp)` loop (core.py lines
556–577): each cell's text loses its last character (`item.text()[:-1]`)
and is parsed by `int` (failure is a `ValueError`); index 0 sets the
fahrenheit high, 1 the celsius high, 2 the fahrenheit low, and every
later index the celsius low. -/
def tempLoop : Nat → List String → RawHL × RawHL →
    Except ExtractError (RawHL × RawHL)
  | _, [], acc => .ok acc
  | ix, item :: rest, (fh, cl) =>
    match pyInt? (pyDropLast item) with
    | none => .error (.mk .valueError "invalid literal for int")
    | some v =>
      let acc :=
        if ix = 0 then ({ fh with highest := some v }, cl)
        else if ix = 1 then (fh, { cl with highest := some v })
        else if ix = 2 then ({ fh with lowest := some v }, cl)
        else (fh, { cl with lowest := some v })
      tempLoop (ix + 1) rest acc

/-- Builds one forecast row's day label and `info` dict (core.py lines
523–577). -/
def buildRow (r : ForecastRow) : Except ExtractError (String × RawInfo) :=
  let info : RawInfo := {}
  let info := match r.weatherImg with
    | none => info
    | some w => { info with weather := some (w.alt, w.src) }
  let info := match r.precip with
    | none => info
    | some p => { info with precipitation := some (p.iconSrc, p.percentage) }
  match tempLoop 0 r.hl_temp ({}, {}) with
  | .error e => .error e
  | .ok (fh, cl) => .ok (r.day, { info with fahrenheit := fh, celsius := cl })

/-- Python dict assignment `d[k] = v`: an existing key keeps its
position and takes the new value; a new key is appended. -/
def dictInsert (k : String) (v : RawInfo) :
    List (String × RawInfo) → List (String × RawInfo)
  | [] => [(k, v)]
  | (k0, v0) :: rest =>
    if k0 = k then (k0, v) :: rest
    else (k0, v0) :: dictInsert k v rest

/-- The `for row in weather_table[:7]` loop (core.py lines 523–579):
each row's info is assigned into `data["forecast"]` keyed by its day
label. -/
def forecastLoop : List ForecastRow → List (String × RawInfo) →
    Except ExtractError (List (String × RawInfo))
  | [], acc => .ok acc
  | r :: rs, acc =>
    match buildRow r with
    | .error e => .error e
    | .ok di => forecastLoop rs (dictInsert di.1 di.2 acc)

/-- pydantic validation of a `HighLowTemperature` dict: both fields
required. -/
def validateHL (h : RawHL) : Except ExtractError HighLowTemperature :=
  match h.highest, h.lowest with
  | some hi, some lo => .ok { highest := hi, lowest := lo }
  | _, _ => .error (.mk .validationError "temperature field required")

/-- pydantic validation of one row's `info` dict into a
`WeatherForecast`: every nested field is required, and the icon texts
must be actual strings (a valueless attribute is `None` and fails). -/
def validateInfo (i : RawInfo) : Except ExtractError WeatherForecast :=
  match validateHL i.fahrenheit, validateHL i.celsius, i.weather, i.precipitation with
  | .ok f, .ok c, some (some wt, some wi), some pr =>
    .ok { fahrenheit := f, celsius := c,
          weather := { text := wt, icon := wi },
          precipitation := { icon := pr.1, percentage := pr.2 } }
  | .error e, _, _, _ => .error e
  | _, .error e, _, _ => .error e
  | _, _, _, _ => .error (.mk .validationError "forecast field required")

/-- pydantic validation of the `forecast` dict: every key must be one of
the seven weekday `Literal` values and every value a complete
`WeatherForecast`. -/
def validateForecastEntries : List (String × RawInfo) →
    Except ExtractError (List (String × WeatherForecast))
  | [] => .ok []
  | (k, i) :: rest =>
    if weekdays.contains k then
      match validateInfo i with
      | .error e => .error e
      | .ok w =>
        match validateForecastEntries rest with
        | .error e => .error e
        | .ok ws => .ok ((k, w) :: ws)
    else .error (.mk .validationError "forecast key is not a weekday literal")

/-- The `WeatherInformation(**data)` validation: every scalar field of
the `data` dict must be present (and the icon probe's attribute value an
actual string), and the forecast dict must validate entry by entry. -/
def validateWeatherTop (loc ctry tm : Option String) (cv fv : Option Int)
    (wt : Option String) (iconProbe : Option (Option String))
    (raw : List (String × RawInfo)) : Except ExtractError WeatherInformation :=
  match loc, ctry, tm, cv, fv, wt, iconProbe with
  | some loc, some ctry, some tm, some cv, some fv, some wt, some (some icon) =>
    match validateForecastEntries raw with
    | .error e => .error e
    | .ok fc =>
      .ok { location := loc, country := ctry, time := tm, celsius := cv,
            fahrenheit := fv, weather := wt, weather_icon := icon,
            forecast := fc }
  | _, _, _, _, _, _, _ =>
    .error (.mk .validationError "weather field required")

/-- Embedding of the parsing part of `weather` (core.py lines 462–581):
build the `data` dict probe by probe (`int(...)` failures raise during
building), walk the first seven forecast rows when the heading module
matched, then validate everything as `WeatherInformation(**data)`.  The
`probes` triple carries the dict's `weather_icon` probe, `weather` probe
and `forecast` value. -/
def weather_extract (p : WeatherPage) : Except ExtractError WeatherInformation :=
  match (match p.celsiusText with
         | none => Except.ok none
         | some t =>
           match pyInt? t with
           | none => Except.error (ExtractError.mk .valueError "invalid literal for int")
           | some v => Except.ok (some v)) with
  | .error e => .error e
  | .ok celsiusVal =>
    match (match p.fahrenheitText with
           | none => Except.ok none
           | some t =>
             match pyInt? t with
             | none => Except.error (ExtractError.mk .valueError "invalid literal for int")
             | some v => Except.ok (some v)) with
    | .error e => .error e
    | .ok fahrenheitVal =>
      match (match p.heading with
             | none => Except.ok (none, none, [])
             | some h =>
               match forecastLoop (p.rows.take 7) [] with
               | .error e => Except.error e
               | .ok fc => Except.ok (h.imgSrc, h.pText, fc)) with
      | .error e => .error e
      | .ok probes =>
        validateWeatherTop p.location p.country p.time celsiusVal fahrenheitVal
          probes.2.1 probes.1 probes.2.2

/-! ### Concrete fixtures used by the claim theorems -/

/-- A redirect-wrapper (tracking) URL as Yahoo emits them. -/
def rawWrap : String :=
  "https://r.search.yahoo.com/_ylt=abc/RU=https%3A%2F%2Ffoo.com/RK=0"

/-- The URL of the spec's `resolve_destination_link` example: its path
contains `RU=https%3A%2F%2Fexample.com%2Fabc/RK=...`. -/
def ruExampleUrl : String :=
  "https://r.search.yahoo.com/_ylt=Awr/RU=https%3A%2F%2Fexample.com%2Fabc/RK=2/RS=xyz"

/-- A search page whose results container matched but whose card panel
selector matched nothing. -/
def pageNoCard : SearchPage :=
  { center := some [], card := none, also_try := [], related := [] }

/-- A search page whose `also_try` anchor carries a raw redirect-wrapper
href. -/
def pageC1 : SearchPage :=
  { center := some [], card := none,
    also_try := [{ href := some rawWrap, text := "foo" }], related := [] }

/-- A search page exercising every link list: one organic block with a
wrapper-URL title anchor, one `also_try` entry and one related search. -/
def pageW1 : SearchPage :=
  { center := some [{ titles := [{ href := some rawWrap, lastChildText := some "Foo" }],
                      texts := ["snippet"] }],
    card := none,
    also_try := [{ href := some "https://a.example/x", text := "at" }],
    related := [{ href := some "https://b.example/y", text := "rs" }] }

/-- A news list item in which no probed sub-element matched. -/
def emptyNewsItem : NewsItem :=
  { img := none, title := none, source := none, lastUpdated := none,
    description := none }

/-- A news list item with a heading anchor and a relative-time label. -/
def timedNewsItem : NewsItem :=
  { img := none, title := some { text := "T", href := some "https://n.example/a" },
    source := none, lastUpdated := some "· 2 hours ago", description := none }

/-- A news list item with every probe matched. -/
def fullNewsItem : NewsItem :=
  { img := some { src := some "https://img.example/t.jpg" },
    title := some { text := "Headline", href := some "https://n.example/b" },
    source := some "Reuters", lastUpdated := some "· 1 hour ago",
    description := some "Body text" }

/-- The empty-result failure of `search_videos` (core.py line 376). -/
def videoEmptyError : ExtractError :=
  .mk .assertionError "Couldn\x27t find any results for \x27#search li.vr.vres\x27"

/-- The missing-container failure of `search` (core.py line 163). -/
def searchMissingError : ExtractError :=
  .mk .assertionError "Could not find \x27.reg.searchCCenterMiddle\x27 (search results)"

/-- A complete forecast table row for the weather fixtures. -/
def mkRow (d a b c e : String) : ForecastRow :=
  { day := d, weatherImg := some { alt := some "Sunny", src := some "i.png" },
    precip := some { iconSrc := "p.png", percentage := "10%" },
    hl_temp := [a, b, c, e] }

/-- A weather page with every required probe matched and exactly five
forecast rows with distinct weekday labels. -/
def wpage5 : WeatherPage :=
  { location := some "Singapore", country := some "Singapore",
    time := some "9:00 AM",
    celsiusText := some "33", fahrenheitText := some "92",
    heading := some { imgSrc := some (some "w.png"), pText := some "Cloudy" },
    rows := [mkRow "Monday" "92°" "33°" "78°" "25°",
             mkRow "Tuesday" "93°" "34°" "79°" "26°",
             mkRow "Wednesday" "90°" "32°" "77°" "25°",
             mkRow "Thursday" "91°" "33°" "76°" "24°",
             mkRow "Friday" "89°" "31°" "75°" "23°"] }

/-- The forecast record a `mkRow` row yields. -/
def mkForecast (hif lof hic loc : Int) : WeatherForecast :=
  { fahrenheit := { highest := hif, lowest := lof },
    celsius := { highest := hic, lowest := loc },
    weather := { text := "Sunny", icon := "i.png" },
    precipitation := { icon := "p.png", percentage := "10%" } }

/-- The record `weather_extract` produces from `wpage5`. -/
def wres5 : WeatherInformation :=
  { location := "Singapore", country := "Singapore", time := "9:00 AM",
    celsius := 33, fahrenheit := 92, weather := "Cloudy", weather_icon := "w.png",
    forecast := [("Monday", mkForecast 92 78 33 25),
                 ("Tuesday", mkForecast 93 79 34 26),
                 ("Wednesday", mkForecast 90 77 32 25),
                 ("Thursday", mkForecast 91 76 33 24),
                 ("Friday", mkForecast 89 75 31 23)] }

/-- A forecast row with exactly four temperature cells and no icon or
precipitation probes. -/
def rowW : ForecastRow :=
  { day := "Monday", weatherImg := none, precip := none,
    hl_temp := ["92°", "33°", "78°", "25°"] }

/-- The record `search_extract` produces from `pageW1`. -/
def resW1 : SearchResult :=
  { also_try := [{ link := "https://a.example/x", text := "at" }],
    pages := [{ title := "Foo", link := "https://foo.com", text := some "snippet" }],
    card := some { image := none, heading := none, text := none, source := none },
    related_searches := [{ link := "https://b.example/y", text := "rs" }] }

/-- The record `search_extract` produces from `pageNoCard`. -/
def resNoCard : SearchResult :=
  { also_try := [], pages := [],
    card := some { image := none, heading := none, text := none, source := none },
    related_searches := [] }

/-- The record `search_news_extract` produces from a page holding only
`fullNewsItem`. -/
def resNewsW : NewsSearchResult :=
  { news := [{ title := "Headline", thumbnail := some "https://img.example/t.jpg",
               source := some "Reuters", last_updated := none,
               text := some "Body text" }] }

/-! ## Helper lemmas

Shared inversion and provenance lemmas about the embedded extractors. -/

/-- From a successful `search_extract` run, recover each stage of the
pipeline. -/
theorem search_extract_ok_inv (p : SearchPage) (r : SearchResult)
    (h : search_extract p = .ok r) :
    ∃ ws pds cd,
      p.center = some ws ∧ buildPageDicts ws = .ok pds ∧
      buildCardDict p.card = .ok cd ∧
      validatePages pds = .ok r.pages ∧
      validateAlsoTry (p.also_try.map fun it => (it.href, it.text)) = .ok r.also_try ∧
      validateRelated (p.related.map fun it => (it.href, it.text)) = .ok r.related_searches ∧
      r.card = some (validateCard cd) := by
  unfold search_extract at h
  split at h
  · exact absurd h (by simp)
  next ws hc =>
    split at h
    · exact absurd h (by simp)
    next pds h1 =>
      split at h
      · exact absurd h (by simp)
      next cd h2 =>
        split at h
        · exact absurd h (by simp)
        next alsoT h3 =>
          split at h
          · exact absurd h (by simp)
          next pgs h4 =>
            split at h
            · exact absurd h (by simp)
            next rel h5 =>
              injection h with h
              subst h
              exact ⟨ws, pds, cd, hc, h1, h2, h4, h3, h5, rfl⟩

/-- The title loop only ever stores links obtained by running
`get_abs_link` on the href of one of the traversed title anchors. -/
theorem titleLoop_ok_some (ts : List TitleNode) (acc : Option (String × String))
    (q : String × String) (h : titleLoop ts acc = .ok (some q)) :
    (∃ t, t ∈ ts ∧ get_abs_link t.href = .ok q.2) ∨ acc = some q := by
  induction ts generalizing acc with
  | nil =>
    unfold titleLoop at h
    right
    exact Except.ok.inj h
  | cons t ts ih =>
    unfold titleLoop at h
    split at h
    · exact absurd h (by simp)
    next l hg =>
      rcases ih _ h with ⟨t2, ht2, hh⟩ | h2
      · exact Or.inl ⟨t2, List.mem_cons_of_mem _ ht2, hh⟩
      · left
        refine ⟨t, List.mem_cons_self _ _, ?_⟩
        rw [hg]
        have : l = q.2 := by
          have := Option.some.inj h2
          rw [← this]
        rw [this]

/-- A page dict's link, when present, is `get_abs_link` of the href of
one of that block's own title anchors. -/
theorem buildPageDict_link (w : Webpage) (d : PageDict) (l : String)
    (h : buildPageDict w = .ok d) (hl : d.link = some l) :
    ∃ t, t ∈ w.titles ∧ get_abs_link t.href = .ok l := by
  unfold buildPageDict at h
  split at h
  · exact absurd h (by simp)
  next tl ht =>
    injection h with h
    subst h
    simp only at hl
    match tl, hl with
    | some q, hl =>
      have hq : q.2 = l := by simpa using hl
      rcases titleLoop_ok_some w.titles none q ht with ⟨t, htm, hh⟩ | habs
      · exact ⟨t, htm, hq ▸ hh⟩
      · exact absurd habs (by simp)

/-- Every built page dict came from one of the organic blocks. -/
theorem buildPageDicts_mem (ws : List Webpage) (ds : List PageDict)
    (h : buildPageDicts ws = .ok ds) (d : PageDict) (hd : d ∈ ds) :
    ∃ w, w ∈ ws ∧ buildPageDict w = .ok d := by
  induction ws generalizing ds with
  | nil =>
    unfold buildPageDicts at h
    cases Except.ok.inj h
    simp at hd
  | cons w ws ih =>
    unfold buildPageDicts at h
    split at h
    · exact absurd h (by simp)
    next d0 h0 =>
      split at h
      · exact absurd h (by simp)
      next ds0 h1 =>
        cases Except.ok.inj h
        rcases List.mem_cons.mp hd with rfl | hm
        · exact ⟨w, List.mem_cons_self _ _, h0⟩
        · rcases ih ds0 h1 hm with ⟨w1, hw1, hb⟩
          exact ⟨w1, List.mem_cons_of_mem _ hw1, hb⟩

/-- Every validated page result has its link stored in some page dict. -/
theorem validatePages_mem (ds : List PageDict) (ps : List PageResult)
    (h : validatePages ds = .ok ps) (pg : PageResult) (hm : pg ∈ ps) :
    ∃ d, d ∈ ds ∧ d.link = some pg.link := by
  induction ds generalizing ps with
  | nil =>
    unfold validatePages at h
    cases Except.ok.inj h
    simp at hm
  | cons d ds ih =>
    unfold validatePages at h
    split at h
    next t l ht hl =>
      split at h
      · exact absurd h (by simp)
      next ps0 h1 =>
        cases Except.ok.inj h
        rcases List.mem_cons.mp hm with rfl | hm2
        · exact ⟨d, List.mem_cons_self _ _, hl⟩
        · rcases ih ps0 h1 hm2 with ⟨d1, hd1, hb⟩
          exact ⟨d1, List.mem_cons_of_mem _ hd1, hb⟩
    · exact absurd h (by simp)

/-- Every validated `also_try` item is one of the built href/text pairs,
kept verbatim. -/
theorem validateAlsoTry_mem (ds : List (Option String × String))
    (as : List AlsoTryItem) (h : validateAlsoTry ds = .ok as)
    (a : AlsoTryItem) (ha : a ∈ as) : (some a.link, a.text) ∈ ds := by
  induction ds generalizing as with
  | nil =>
    unfold validateAlsoTry at h
    cases Except.ok.inj h
    simp at ha
  | cons d ds ih =>
    obtain ⟨dh, dt⟩ := d
    unfold validateAlsoTry at h
    split at h
    next l hl =>
      split at h
      · exact absurd h (by simp)
      next as0 h1 =>
        cases Except.ok.inj h
        rcases List.mem_cons.mp ha with rfl | hm
        · simp
        · exact List.mem_cons_of_mem _ (ih as0 h1 hm)
    · exact absurd h (by simp)

/-- Every validated related search is one of the built href/text pairs,
kept verbatim. -/
theorem validateRelated_mem (ds : List (Option String × String))
    (as : List RelatedSearch) (h : validateRelated ds = .ok as)
    (a : RelatedSearch) (ha : a ∈ as) : (some a.link, a.text) ∈ ds := by
  induction ds generalizing as with
  | nil =>
    unfold validateRelated at h
    cases Except.ok.inj h
    simp at ha
  | cons d ds ih =>
    obtain ⟨dh, dt⟩ := d
    unfold validateRelated at h
    split at h
    next l hl =>
      split at h
      · exact absurd h (by simp)
      next as0 h1 =>
        cases Except.ok.inj h
        rcases List.mem_cons.mp ha with rfl | hm
        · simp
        · exact List.mem_cons_of_mem _ (ih as0 h1 hm)
    · exact absurd h (by simp)

/-- A news dict's `title` entry mirrors the item's heading anchor. -/
theorem buildNewsDict_title (n : NewsItem) (d : NewsDict)
    (h : buildNewsDict n = .ok d) : d.title = n.title.map NewsAnchor.text := by
  obtain ⟨img, title, source, lastUpdated, description⟩ := n
  cases img with
  | none =>
    cases title <;> cases source <;> cases lastUpdated <;> cases description <;>
      (simp [buildNewsDict] at h; subst h; simp)
  | some im =>
    cases him : im.src with
    | none => simp [buildNewsDict, him] at h
    | some s =>
      cases title <;> cases source <;> cases lastUpdated <;> cases description <;>
        (simp [buildNewsDict, him] at h; subst h; simp)

/-- A successful news run keeps one record per row and implies that
every row had a heading anchor. -/
theorem news_success_shape (items : List NewsItem) (ds : List NewsDict)
    (ns : List News) (hb : buildNewsDicts items = .ok ds)
    (hv : validateNewsList ds = .ok ns) :
    ns.length = items.length ∧ ∀ it ∈ items, it.title.isSome := by
  induction items generalizing ds ns with
  | nil =>
    unfold buildNewsDicts at hb
    cases Except.ok.inj hb
    unfold validateNewsList at hv
    cases Except.ok.inj hv
    simp
  | cons it its ih =>
    unfold buildNewsDicts at hb
    split at hb
    · exact absurd hb (by simp)
    next d0 h0 =>
      split at hb
      · exact absurd hb (by simp)
      next ds0 h1 =>
        cases Except.ok.inj hb
        unfold validateNewsList at hv
        split at hv
        · exact absurd hv (by simp)
        next n0 hn0 =>
          split at hv
          · exact absurd hv (by simp)
          next ns0 hns0 =>
            cases Except.ok.inj hv
            obtain ⟨hlen, hall⟩ := ih ds0 ns0 h1 hns0
            refine ⟨by simp [hlen], ?_⟩
            intro x hx
            rcases List.mem_cons.mp hx with rfl | hm
            · have ht := buildNewsDict_title x d0 h0
              unfold validateNews at hn0
              split at hn0
              next htt => rw [htt] at ht; cases hxt : x.title <;> simp_all
              next t htt => cases hxt : x.title <;> simp_all
            · exact hall x hm

/-- A successfully built row is keyed by its own day label. -/
theorem buildRow_day (r : ForecastRow) (di : String × RawInfo)
    (h : buildRow r = .ok di) : di.1 = r.day := by
  unfold buildRow at h
  cases ht : tempLoop 0 r.hl_temp ({}, {}) with
  | error e =>
    rw [ht] at h
    simp at h
  | ok q =>
    obtain ⟨fh, cl⟩ := q
    rw [ht] at h
    cases Except.ok.inj h
    rfl

/-- Assigning an existing key leaves the key list unchanged. -/
theorem dictInsert_keys_mem (k : String) (v : RawInfo) (d : List (String × RawInfo))
    (hk : k ∈ d.map Prod.fst) :
    (dictInsert k v d).map Prod.fst = d.map Prod.fst := by
  induction d with
  | nil => simp at hk
  | cons kv rest ih =>
    obtain ⟨k0, v0⟩ := kv
    by_cases hkk : k0 = k
    · simp [dictInsert, hkk]
    · have hk2 : k ∈ rest.map Prod.fst := by
        simp only [List.map_cons, List.mem_cons] at hk
        rcases hk with h1 | h1
        · exact absurd h1.symm hkk
        · exact h1
      simp [dictInsert, hkk, ih hk2]

/-- Assigning a fresh key appends it to the key list. -/
theorem dictInsert_keys_not_mem (k : String) (v : RawInfo)
    (d : List (String × RawInfo)) (hk : k ∉ d.map Prod.fst) :
    (dictInsert k v d).map Prod.fst = d.map Prod.fst ++ [k] := by
  induction d with
  | nil => simp [dictInsert]
  | cons kv rest ih =>
    obtain ⟨k0, v0⟩ := kv
    have hkk : ¬ k0 = k := by
      intro hh
      exact hk (by simp [hh])
    have hk2 : k ∉ rest.map Prod.fst := by
      intro hh
      exact hk (by simp [hh])
    simp [dictInsert, hkk, ih hk2]

/-- Dict assignment keeps the key list duplicate-free. -/
theorem dictInsert_nodup (k : String) (v : RawInfo) (d : List (String × RawInfo))
    (hd : (d.map Prod.fst).Nodup) :
    ((dictInsert k v d).map Prod.fst).Nodup := by
  by_cases hk : k ∈ d.map Prod.fst
  · rw [dictInsert_keys_mem k v d hk]; exact hd
  · rw [dictInsert_keys_not_mem k v d hk]
    simp [List.nodup_append, hd, hk]

/-- Dict assignment grows the dict by at most one entry. -/
theorem dictInsert_length_le (k : String) (v : RawInfo) (d : List (String × RawInfo)) :
    (dictInsert k v d).length ≤ d.length + 1 := by
  induction d with
  | nil => simp [dictInsert]
  | cons kv rest ih =>
    obtain ⟨k0, v0⟩ := kv
    by_cases hkk : k0 = k
    · simp [dictInsert, hkk]
    · simp only [dictInsert, hkk, if_false, List.length_cons]
      have := ih
      omega

/-- The forecast loop adds at most one entry per row and keeps the key
list duplicate-free. -/
theorem forecastLoop_len_nodup (rs : List ForecastRow)
    (acc out : List (String × RawInfo)) (h : forecastLoop rs acc = .ok out) :
    out.length ≤ acc.length + rs.length ∧
    ((acc.map Prod.fst).Nodup → (out.map Prod.fst).Nodup) := by
  induction rs generalizing acc with
  | nil =>
    unfold forecastLoop at h
    cases Except.ok.inj h
    simp
  | cons r rs ih =>
    unfold forecastLoop at h
    split at h
    · exact absurd h (by simp)
    next di hb =>
      obtain ⟨hl, hn⟩ := ih (dictInsert di.1 di.2 acc) h
      constructor
      · have := dictInsert_length_le di.1 di.2 acc
        simp only [List.length_cons]
        omega
      · intro hacc
        exact hn (dictInsert_nodup _ _ _ hacc)

/-- With duplicate-free day labels disjoint from the accumulator, the
forecast loop appends exactly the day labels, in row order. -/
theorem forecastLoop_keys (rs : List ForecastRow)
    (acc out : List (String × RawInfo))
    (hnd : (rs.map ForecastRow.day).Nodup)
    (hdisj : ∀ r ∈ rs, r.day ∉ acc.map Prod.fst)
    (h : forecastLoop rs acc = .ok out) :
    out.map Prod.fst = acc.map Prod.fst ++ rs.map ForecastRow.day := by
  induction rs generalizing acc with
  | nil =>
    unfold forecastLoop at h
    cases Except.ok.inj h
    simp
  | cons r rs ih =>
    unfold forecastLoop at h
    split at h
    · exact absurd h (by simp)
    next di hb =>
      have hday := buildRow_day r di hb
      have hnotin : r.day ∉ acc.map Prod.fst := hdisj r (List.mem_cons_self _ _)
      have hkeys := dictInsert_keys_not_mem di.1 di.2 acc (by rw [hday]; exact hnotin)
      rw [List.map_cons] at hnd
      obtain ⟨hhead, hnd2⟩ := List.nodup_cons.mp hnd
      have ih2 := ih (dictInsert di.1 di.2 acc)
        hnd2
        (by
          intro r2 hr2
          rw [hkeys]
          simp only [List.mem_append, List.mem_singleton]
          rintro (hin | heq)
          · exact hdisj r2 (List.mem_cons_of_mem _ hr2) hin
          · rw [hday] at heq
            exact hhead (List.mem_map.mpr ⟨r2, hr2, heq⟩))
        h
      rw [ih2, hkeys, hday, List.map_cons]
      simp

/-- Validating the forecast dict preserves its keys. -/
theorem validateForecastEntries_keys (l : List (String × RawInfo))
    (l2 : List (String × WeatherForecast))
    (h : validateForecastEntries l = .ok l2) :
    l2.map Prod.fst = l.map Prod.fst := by
  induction l generalizing l2 with
  | nil =>
    unfold validateForecastEntries at h
    cases Except.ok.inj h
    simp
  | cons kv rest ih =>
    obtain ⟨k, i⟩ := kv
    unfold validateForecastEntries at h
    split at h
    · split at h
      · exact absurd h (by simp)
      next w hw =>
        split at h
        · exact absurd h (by simp)
        next ws hws =>
          cases Except.ok.inj h
          simp [ih ws hws]
    · exact absurd h (by simp)

/-- A successful top-level weather validation validated the forecast
dict it was given. -/
theorem validateWeatherTop_ok_inv (loc ctry tm : Option String)
    (cv fv : Option Int) (wt : Option String) (ic : Option (Option String))
    (raw : List (String × RawInfo)) (r : WeatherInformation)
    (h : validateWeatherTop loc ctry tm cv fv wt ic raw = .ok r) :
    validateForecastEntries raw = .ok r.forecast := by
  unfold validateWeatherTop at h
  split at h
  · split at h
    · exact absurd h (by simp)
    next fc hfc =>
      cases Except.ok.inj h
      exact hfc
  · exact absurd h (by simp)

/-- Validation cannot succeed without a weather icon probe. -/
theorem validateWeatherTop_none_icon (loc ctry tm : Option String)
    (cv fv : Option Int) (wt : Option String)
    (raw : List (String × RawInfo)) (r : WeatherInformation) :
    validateWeatherTop loc ctry tm cv fv wt none raw ≠ .ok r := by
  unfold validateWeatherTop
  split <;> simp_all

/-- From a successful `weather_extract` run, recover the forecast loop
output and its validation. -/
theorem weather_extract_ok_inv (p : WeatherPage) (r : WeatherInformation)
    (h : weather_extract p = .ok r) :
    ∃ raw, forecastLoop (p.rows.take 7) [] = .ok raw ∧
      validateForecastEntries raw = .ok r.forecast := by
  unfold weather_extract at h
  split at h
  · exact absurd h (by simp)
  next cv h1 =>
    split at h
    · exact absurd h (by simp)
    next fv h2 =>
      split at h
      · exact absurd h (by simp)
      next probes h3 =>
        split at h3
        · cases Except.ok.inj h3
          exact absurd h (validateWeatherTop_none_icon _ _ _ _ _ _ _ r)
        next hm hhm =>
          split at h3
          · exact absurd h3 (by simp)
          next fc2 hfc2 =>
            cases Except.ok.inj h3
            exact ⟨fc2, hfc2, validateWeatherTop_ok_inv _ _ _ _ _ _ _ _ r h⟩

/-! ## Claim theorems -/

/-- C1 (counterexample): the claim fails for `also_try` links.  On a
fixture whose "also try" anchor carries a raw redirect-wrapper href, the
returned `also_try` link is that raw tracking URL verbatim: it still
contains the `RU=` redirect-wrapper marker and differs from the decoded
destination `get_abs_link` would produce. -/
theorem search_links_counterexample :
    pageC1.also_try = [{ href := some rawWrap, text := "foo" }] ∧
    search_extract pageC1 =
      .ok { also_try := [{ link := rawWrap, text := "foo" }], pages := [],
            card := some { image := none, heading := none, text := none, source := none },
            related_searches := [] } ∧
    get_abs_link (some rawWrap) = .ok "https://foo.com" ∧
    rawWrap ≠ "https://foo.com" ∧
    (pySplit rawWrap "RU=").length = 2 :=
  ⟨rfl, rfl, rfl, by decide, rfl⟩

/-- C1 (amended): in every successful `search_extract` run, each
`pages[i].link` is `get_abs_link` applied to the href of one of the
title anchors of one of the page's own organic result blocks (the
decoded, redirect-stripped destination of that anchor), while each
`also_try` and `related_searches` link is the anchor's raw href, kept
verbatim. -/
theorem search_extract_link_provenance (p : SearchPage) (r : SearchResult)
    (h : search_extract p = .ok r) :
    (∀ pg ∈ r.pages, ∃ ws, p.center = some ws ∧
       ∃ w, w ∈ ws ∧ ∃ t, t ∈ w.titles ∧ get_abs_link t.href = .ok pg.link) ∧
    (∀ a ∈ r.also_try, ∃ it, it ∈ p.also_try ∧ it.href = some a.link ∧ it.text = a.text) ∧
    (∀ a ∈ r.related_searches, ∃ it, it ∈ p.related ∧ it.href = some a.link ∧ it.text = a.text) := by
  obtain ⟨ws, pds, cd, hc, h1, h2, h4, h3, h5, hcard⟩ := search_extract_ok_inv p r h
  refine ⟨?_, ?_, ?_⟩
  · intro pg hpg
    obtain ⟨d, hd, hdl⟩ := validatePages_mem pds r.pages h4 pg hpg
    obtain ⟨w, hw, hb⟩ := buildPageDicts_mem ws pds h1 d hd
    obtain ⟨t, htm, hh⟩ := buildPageDict_link w d pg.link hb hdl
    exact ⟨ws, hc, w, hw, t, htm, hh⟩
  · intro a ha
    have hm := validateAlsoTry_mem _ r.also_try h3 a ha
    obtain ⟨it, hit, heq⟩ := List.mem_map.mp hm
    refine ⟨it, hit, ?_, ?_⟩
    · exact congrArg Prod.fst heq
    · exact congrArg Prod.snd heq
  · intro a ha
    have hm := validateRelated_mem _ r.related_searches h5 a ha
    obtain ⟨it, hit, heq⟩ := List.mem_map.mp hm
    refine ⟨it, hit, ?_, ?_⟩
    · exact congrArg Prod.fst heq
    · exact congrArg Prod.snd heq

/-- C1 (witness): the amended statement evaluated on a concrete page
with one organic result, one "also try" entry and one related search. -/
theorem search_extract_link_provenance_witness :
    search_extract pageW1 = .ok resW1 ∧
    ((∀ pg ∈ resW1.pages, ∃ ws, pageW1.center = some ws ∧
        ∃ w, w ∈ ws ∧ ∃ t, t ∈ w.titles ∧ get_abs_link t.href = .ok pg.link) ∧
     (∀ a ∈ resW1.also_try, ∃ it, it ∈ pageW1.also_try ∧ it.href = some a.link ∧ it.text = a.text) ∧
     (∀ a ∈ resW1.related_searches, ∃ it, it ∈ pageW1.related ∧ it.href = some a.link ∧ it.text = a.text)) :=
  ⟨rfl, search_extract_link_provenance pageW1 resW1 rfl⟩

/-- C2 (counterexample): `get_abs_link` is not total — on a non-empty
URL whose path has no `RU=` marker it raises `IndexError` instead of
returning an empty or best-effort string. -/
theorem get_abs_link_raises_counterexample :
    get_abs_link (some "https://example.com/foo") =
      .error (.mk .indexError "list index out of range") := rfl

/-- C2 (amended): `get_abs_link` returns `""` for an absent or empty
input, and raises `IndexError` (rather than returning) on every
non-empty URL whose path lacks the `RU=` marker. -/
theorem get_abs_link_empty_and_missing_marker :
    get_abs_link none = .ok "" ∧ get_abs_link (some "") = .ok "" ∧
    ∀ s : String, s ≠ "" → (pySplit (urlsplitPath s) "RU=").length = 1 →
      get_abs_link (some s) = .error (.mk .indexError "list index out of range") := by
  refine ⟨rfl, rfl, ?_⟩
  intro s hs hlen
  obtain ⟨a, ha⟩ := List.length_eq_one.mp hlen
  simp [get_abs_link, hs, ha]

/-- C2 (witness): the amended statement discharged on the concrete
marker-less URL. -/
theorem get_abs_link_empty_and_missing_marker_witness :
    ("https://example.com/foo" ≠ "" ∧
      (pySplit (urlsplitPath "https://example.com/foo") "RU=").length = 1) ∧
    get_abs_link (some "https://example.com/foo") =
      .error (.mk .indexError "list index out of range") :=
  ⟨⟨by decide, rfl⟩, get_abs_link_empty_and_missing_marker.2.2 _ (by decide) rfl⟩

/-- C3 (counterexample): on the spec's example URL, `get_abs_link` does
not return `"https://example.com"`. -/
theorem get_abs_link_decode_counterexample :
    get_abs_link (some ruExampleUrl) ≠ .ok "https://example.com" := by decide

/-- C3 (amended): on a URL whose path contains
`RU=https%3A%2F%2Fexample.com%2Fabc/RK=...`, `get_abs_link` returns
`"https://example.com/abc"`: it takes the substring up to the first
literal `/` after the marker and percent-decodes it, so the encoded
`%2F` slashes reappear in the result. -/
theorem get_abs_link_decodes_full_segment :
    get_abs_link (some ruExampleUrl) = .ok "https://example.com/abc" := rfl

/-- C4 (counterexample): on the flat JSON body
`["original","sug1","sug2"]` the extractor returns the string `"sug1"`,
not the list `["sug1","sug2"]`. -/
theorem autocomplete_flat_counterexample :
    autocomplete_extract (.arr [.str "original", .str "sug1", .str "sug2"]) =
      .ok (.str "sug1") ∧
    Json.str "sug1" ≠ Json.arr [.str "sug1", .str "sug2"] :=
  ⟨rfl, fun h => Json.noConfusion h⟩

/-- C4 (amended): `autocomplete` returns, verbatim, the element at index
1 of the JSON array body — whatever JSON value that element is. -/
theorem autocomplete_returns_index_one (x0 x1 : Json) (rest : List Json) :
    autocomplete_extract (.arr (x0 :: x1 :: rest)) = .ok x1 := rfl

/-- C5 (counterexample): a news list item in which no probed sub-element
matches does not yield an empty record — `search_news` fails with a
pydantic validation error, because `News.title` is required. -/
theorem news_empty_row_counterexample :
    emptyNewsItem.title = none ∧
    search_news_extract { web := some [emptyNewsItem] } =
      .error (.mk .validationError "news title field required") :=
  ⟨rfl, rfl⟩

/-- C5 (amended): every `News` field except `title` is optional; a
successful `search_news` run yields one record per list item and implies
that every item had a heading anchor (a row without one makes the final
validation fail). -/
theorem news_title_required_for_success (p : NewsPage) (items : List NewsItem)
    (r : NewsSearchResult) (hw : p.web = some items)
    (h : search_news_extract p = .ok r) :
    r.news.length = items.length ∧ ∀ it ∈ items, it.title.isSome := by
  unfold search_news_extract at h
  split at h
  · exact absurd h (by simp)
  next items0 hsome =>
    rw [hw] at hsome
    cases Option.some.inj hsome
    split at h
    · exact absurd h (by simp)
    next ds h1 =>
      split at h
      · exact absurd h (by simp)
      next ns h2 =>
        cases Except.ok.inj h
        exact news_success_shape items ds ns h1 h2

/-- C5 (witness): the amended statement discharged on a one-item page
whose item has every probe matched. -/
theorem news_title_required_for_success_witness :
    ({ web := some [fullNewsItem] } : NewsPage).web = some [fullNewsItem] ∧
    search_news_extract { web := some [fullNewsItem] } = .ok resNewsW ∧
    (resNewsW.news.length = [fullNewsItem].length ∧
     ∀ it ∈ [fullNewsItem], it.title.isSome) :=
  ⟨rfl, rfl, news_title_required_for_success _ [fullNewsItem] resNewsW rfl rfl⟩

/-- C6: on a news item carrying the relative-time label `"· 2 hours
ago"`, the code computes the stripped text `"2 hours ago"` but stores it
under the dict key `time`, which names no `News` field — the model's
field is `last_updated` and pydantic ignores extra keys — so the
returned record carries no time at all (`last_updated = none`). -/
theorem news_time_label_discarded :
    timedNewsItem.lastUpdated = some "· 2 hours ago" ∧
    pyDrop2 "· 2 hours ago" = "2 hours ago" ∧
    search_news_extract { web := some [timedNewsItem] } =
      .ok { news := [{ title := "T", thumbnail := none, source := none,
                       last_updated := none, text := none }] } :=
  ⟨rfl, rfl, rfl⟩

/-- C7 (counterexample): when the card panel selector matches nothing
the returned record still has a card — an empty `CardResult` — because
`contents["card"]` starts as `{}` and is always passed to validation; so
the claim that the record has no card is false. -/
theorem search_card_never_absent_counterexample :
    pageNoCard.card = none ∧
    search_extract pageNoCard = .ok resNoCard ∧
    resNoCard.card ≠ none :=
  ⟨rfl, rfl, by simp [resNoCard]⟩

/-- C7 (amended): in every successful `search_extract` run on a page
whose card panel selector matched nothing, the result's `card` is `some`
empty `CardResult` (all four fields `none`), never absent. -/
theorem search_card_empty_record_when_panel_absent (p : SearchPage)
    (r : SearchResult) (h : search_extract p = .ok r) (hc : p.card = none) :
    r.card = some { image := none, heading := none, text := none, source := none } := by
  obtain ⟨ws, pds, cd, _, _, h2, _, _, _, hcard⟩ := search_extract_ok_inv p r h
  rw [hc] at h2
  have h2b : Except.ok (ε := ExtractError) ({} : CardDict) = .ok cd := h2
  have hcd : cd = ({} : CardDict) := (Except.ok.inj h2b).symm
  rw [hcard, hcd]
  rfl

/-- C7 (witness): the amended statement discharged on the concrete
card-less page. -/
theorem search_card_empty_record_when_panel_absent_witness :
    search_extract pageNoCard = .ok resNoCard ∧ pageNoCard.card = none ∧
    resNoCard.card = some { image := none, heading := none, text := none, source := none } :=
  ⟨rfl, rfl, search_card_empty_record_when_panel_absent pageNoCard resNoCard rfl rfl⟩

/-- C8 (counterexample): the empty-result failure of `search_videos` and
the missing-container failure of `search` have the *same* kind — both
are `AssertionError`s — so the two failures are not distinguishable by
kind, contradicting the claim's final clause. -/
theorem video_error_kind_counterexample :
    search_videos_extract { results := [] } = .error videoEmptyError ∧
    search_extract { center := none, card := none, also_try := [], related := [] } =
      .error searchMissingError ∧
    videoEmptyError.kind = searchMissingError.kind :=
  ⟨rfl, rfl, rfl⟩

/-- C8 (amended): `search_videos` on a page with zero matching video
items raises the empty-result assertion error; it is the same failure
kind (`AssertionError`) as the layout assertion error `search` raises
for a missing results container, and the two are distinguishable only by
their messages, which differ. -/
theorem video_empty_error_same_kind_distinct_message :
    search_videos_extract { results := [] } = .error videoEmptyError ∧
    search_extract { center := none, card := none, also_try := [], related := [] } =
      .error searchMissingError ∧
    videoEmptyError.kind = .assertionError ∧
    searchMissingError.kind = .assertionError ∧
    videoEmptyError.msg ≠ searchMissingError.msg :=
  ⟨rfl, rfl, rfl, rfl, by decide⟩

/-- C9: in every successful `weather` run the forecast mapping has at
most 7 entries with duplicate-free keys, and on a page with exactly 5
forecast rows bearing distinct day labels it has exactly those 5 labels
as keys, in row order, with nothing fabricated. -/
theorem weather_forecast_key_structure (p : WeatherPage) (r : WeatherInformation)
    (h : weather_extract p = .ok r) :
    r.forecast.length ≤ 7 ∧ (r.forecast.map Prod.fst).Nodup ∧
    (p.rows.length = 5 → (p.rows.map ForecastRow.day).Nodup →
      r.forecast.map Prod.fst = p.rows.map ForecastRow.day) := by
  obtain ⟨raw, hloop, hval⟩ := weather_extract_ok_inv p r h
  have hkeys := validateForecastEntries_keys raw r.forecast hval
  obtain ⟨hlen, hnd⟩ := forecastLoop_len_nodup (p.rows.take 7) [] raw hloop
  have hlenf : r.forecast.length = raw.length := by
    have := congrArg List.length hkeys
    simpa using this
  have htk : (p.rows.take 7).length ≤ 7 := by
    simp [List.length_take]
  have hlen2 : raw.length ≤ (p.rows.take 7).length := by simpa using hlen
  refine ⟨by omega, ?_, ?_⟩
  · rw [hkeys]
    exact hnd (by simp)
  · intro h5 hndd
    have htake : p.rows.take 7 = p.rows := List.take_of_length_le (by omega)
    rw [hkeys]
    have hk2 := forecastLoop_keys (p.rows.take 7) [] raw
      (by rw [htake]; exact hndd) (by simp) hloop
    rw [htake] at hk2
    simpa using hk2

/-- C9 (witness): the statement discharged on the concrete five-row
weather page. -/
theorem weather_forecast_key_structure_witness :
    weather_extract wpage5 = .ok wres5 ∧ wpage5.rows.length = 5 ∧
    (wpage5.rows.map ForecastRow.day).Nodup ∧
    wres5.forecast.length ≤ 7 ∧
    wres5.forecast.map Prod.fst = wpage5.rows.map ForecastRow.day :=
  ⟨rfl, rfl, by decide, by decide,
   (weather_forecast_key_structure wpage5 wres5 rfl).2.2 rfl (by decide)⟩

/-- C10: for a forecast row whose temperature cell texts are
`[a, b, c, d]`, each cell loses its trailing unit-degree character and
is parsed as an integer, and the four values are assigned positionally:
fahrenheit-high, celsius-high, fahrenheit-low, celsius-low. -/
theorem weather_temp_cells_positional (r : ForecastRow) (a b c d : String)
    (va vb vc vd : Int) (hcells : r.hl_temp = [a, b, c, d])
    (ha : pyInt? (pyDropLast a) = some va) (hb : pyInt? (pyDropLast b) = some vb)
    (hc : pyInt? (pyDropLast c) = some vc) (hd : pyInt? (pyDropLast d) = some vd) :
    (buildRow r).map (fun di => (di.1, di.2.fahrenheit, di.2.celsius)) =
      .ok (r.day, { highest := some va, lowest := some vc },
           { highest := some vb, lowest := some vd }) := by
  have hloop : tempLoop 0 [a, b, c, d] ({}, {}) =
      .ok ({ highest := some va, lowest := some vc },
           { highest := some vb, lowest := some vd }) := by
    simp [tempLoop, ha, hb, hc, hd]
  unfold buildRow
  rw [hcells, hloop]
  rfl

/-- C10 (witness): the statement discharged on a concrete row with the
cells `["92°", "33°", "78°", "25°"]`. -/
theorem weather_temp_cells_positional_witness :
    rowW.hl_temp = ["92°", "33°", "78°", "25°"] ∧
    pyInt? (pyDropLast "92°") = some 92 ∧
    pyInt? (pyDropLast "33°") = some 33 ∧
    pyInt? (pyDropLast "78°") = some 78 ∧
    pyInt? (pyDropLast "25°") = some 25 ∧
    (buildRow rowW).map (fun di => (di.1, di.2.fahrenheit, di.2.celsius)) =
      .ok ("Monday", { highest := some 92, lowest := some 78 },
           { highest := some 33, lowest := some 25 }) :=
  ⟨rfl, rfl, rfl, rfl, rfl,
   weather_temp_cells_positional rowW "92°" "33°" "78°" "25°" 92 33 78 25
     rfl rfl rfl rfl rfl⟩

end YahooSearch
